import Mathlib

/-!
Shallow embedding of the Traffic Run micro-rollup state machine
(src/stackr/transitions.ts, src/stackr/state.ts) and proofs of its
specified properties.

The `games` record of the application state is embedded as an association
list in insertion order; JS record assignment (`state.games[k] = v`) is
`setGame`, which replaces in place when the key is present and appends
otherwise, and `Object.keys(state.games).length` is the list length.
The external collision-resistant hash (`hashMessage` from ethers) is a
parameter of the transitions that use it.
-/

namespace TrafficRun

/-- An obstacle on the track: a lane index (0 or 1) and a distance coordinate. -/
structure Obstacle where
  lane : Nat
  z : Int
  deriving DecidableEq, Repr

/-- A game session record, as in src/stackr/state.ts. -/
structure Game where
  gameId : String
  owner : String
  carPosition : Nat
  speed : Nat
  score : Int
  obstacle : Obstacle
  isGameOver : Bool
  startedAt : Nat
  endedAt : Option Nat
  deriving DecidableEq, Repr

/-- The value carried by an emitted event: a string message or a number. -/
inductive EventValue where
  | str : String → EventValue
  | num : Int → EventValue
  deriving DecidableEq, Repr

/-- An emitted event: a name and a value, as passed to `emit` in the handlers. -/
structure Event where
  name : String
  value : EventValue
  deriving DecidableEq, Repr

/-- The games record: an association list keyed by game id, in insertion order. -/
abbrev GameStore := List (String × Game)

/-- JS record lookup `state.games[key]`. -/
def lookupGame : GameStore → String → Option Game
  | [], _ => none
  | (k, g) :: rest, key => if k = key then some g else lookupGame rest key

/-- JS record assignment `state.games[key] = g`: replace in place when the key
is present, append when absent. -/
def setGame : GameStore → String → Game → GameStore
  | [], key, g => [(key, g)]
  | (k, g0) :: rest, key, g =>
      if k = key then (k, g) :: rest else (k, g0) :: setGame rest key g

/-- The application state: the single `games` mapping. -/
structure AppState where
  games : GameStore
  deriving DecidableEq, Repr

/-- The initial state of the application: an empty games record. -/
def initialState : AppState := { games := [] }

/-- The ambient block context supplied by the sequencer. -/
structure Block where
  timestamp : Nat
  deriving DecidableEq, Repr

/-- JS String.prototype.toLowerCase, embedded character-wise so that it
reduces in the kernel. -/
def toLowerCase (s : String) : String := String.mk (s.data.map Char.toLower)

/-- Helper from transitions.ts: obstacles are generated from a timestamp,
lane is `timestamp % 2`, spawn distance is the constant -70. -/
def generateObstacles (timestamp : Nat) : Obstacle :=
  { lane := timestamp % 2, z := -70 }

/-- Typed inputs of the createGame transition (schema: ADDRESS, UINT, UINT). -/
structure CreateGameInputs where
  owner : String
  initialSpeed : Nat
  startedAt : Nat
  deriving DecidableEq, Repr

/-- The createGame transition handler. `hashMessage` is the external
collision-resistant hash from ethers, a parameter of the embedding. -/
def createGame (hashMessage : String → String) (state : AppState)
    (inputs : CreateGameInputs) (msgSender : String) (block : Block) :
    AppState × List Event :=
  if toLowerCase msgSender ≠ toLowerCase inputs.owner then
    (state, [{ name := "InvalidSigner",
               value := .str (msgSender ++ " is not authorized to create a game.") }])
  else
    let gameId := hashMessage
      (msgSender ++ "::" ++ toString block.timestamp ++ "::" ++ toString state.games.length)
    let newGame : Game :=
      { gameId := gameId, owner := inputs.owner, carPosition := 1,
        speed := inputs.initialSpeed, score := -1,
        obstacle := generateObstacles block.timestamp, isGameOver := false,
        startedAt := inputs.startedAt, endedAt := none }
    ({ games := setGame state.games gameId newGame },
     [{ name := "GameCreated", value := .str gameId }])

/-- The userMove transition handler. The `timestamp` input is accepted by the
schema but unused by the logic. -/
def userMove (state : AppState) (gameId actionType : String) (timestamp : Nat)
    (msgSender : String) : AppState × List Event :=
  match lookupGame state.games gameId with
  | none =>
      (state, [{ name := "GameNotFound",
                 value := .str ("Game ID " ++ gameId ++ " does not exist.") }])
  | some game =>
      if toLowerCase game.owner ≠ toLowerCase msgSender then
        (state, [{ name := "UnauthorizedAction",
                   value := .str (msgSender ++ " is not authorized to perform actions in game "
                     ++ gameId ++ ".") }])
      else if actionType = "moveLeft" then
        if game.carPosition = 1 then
          ({ games := setGame state.games gameId { game with carPosition := 0 } },
           [{ name := "CarMovedLeft", value := .num 0 }])
        else (state, [])
      else if actionType = "moveRight" then
        if game.carPosition = 0 then
          ({ games := setGame state.games gameId { game with carPosition := 1 } },
           [{ name := "CarMovedRight", value := .num 1 }])
        else (state, [])
      else
        (state, [{ name := "InvalidAction",
                   value := .str ("Game " ++ gameId ++ ": Invalid action type "
                     ++ actionType ++ ".") }])

/-- The generateObstacleAndScoreUpdate transition handler. -/
def generateObstacleAndScoreUpdate (state : AppState) (gameId : String)
    (timestamp : Nat) (msgSender : String) : AppState × List Event :=
  match lookupGame state.games gameId with
  | none =>
      (state, [{ name := "GameNotFound",
                 value := .str ("Game ID " ++ gameId ++ " does not exist.") }])
  | some game =>
      if toLowerCase game.owner ≠ toLowerCase msgSender then
        (state, [{ name := "UnauthorizedAction",
                   value := .str (msgSender ++ " is not authorized to update the game "
                     ++ gameId ++ ".") }])
      else
        let updated : Game :=
          { game with obstacle := generateObstacles timestamp,
                      score := game.score + (game.speed : Int) }
        ({ games := setGame state.games gameId updated },
         [{ name := "ObstacleGenerated",
            value := .str ("New obstacle generated in lane " ++ toString (timestamp % 2)) },
          { name := "ScoreUpdated",
            value := .str ("Game " ++ gameId ++ ": Score is now "
              ++ toString (game.score + (game.speed : Int)) ++ ".") }])

/-- The gameOver transition handler. -/
def gameOver (state : AppState) (gameId : String) (over : Bool) (timestamp : Nat)
    (msgSender : String) : AppState × List Event :=
  match lookupGame state.games gameId with
  | none =>
      (state, [{ name := "GameNotFound",
                 value := .str ("Game ID " ++ gameId ++ " does not exist.") }])
  | some game =>
      if toLowerCase game.owner ≠ toLowerCase msgSender then
        (state, [{ name := "UnauthorizedAction",
                   value := .str (msgSender ++ " is not authorized to end game "
                     ++ gameId ++ ".") }])
      else
        ({ games := setGame state.games gameId
             { game with isGameOver := over, endedAt := some timestamp } },
         [{ name := "GameOver",
            value := .str ("Game " ++ gameId ++ " is now "
              ++ (if over then "over" else "active") ++ ".") }])

/-- The resetGame transition handler. The caller-supplied `timestamp` input is
unused; the rebuilt obstacle comes from the ambient block timestamp. -/
def resetGame (state : AppState) (gameId : String) (timestamp : Nat)
    (msgSender : String) (block : Block) : AppState × List Event :=
  match lookupGame state.games gameId with
  | none =>
      (state, [{ name := "GameNotFound",
                 value := .str ("Game ID " ++ gameId ++ " does not exist.") }])
  | some game =>
      if toLowerCase game.owner ≠ toLowerCase msgSender then
        (state, [{ name := "UnauthorizedReset",
                   value := .str (msgSender ++ " is not authorized to reset the game "
                     ++ gameId ++ ".") }])
      else
        ({ games := setGame state.games gameId
             { game with carPosition := 1, speed := 1, score := 0,
                         obstacle := generateObstacles block.timestamp,
                         isGameOver := false, endedAt := none } },
         [{ name := "GameReset", value := .str ("Game " ++ gameId ++ " has been reset.") }])

/-- One named transition application with its inputs and ambient context,
as dispatched by the state machine shell. -/
inductive Action where
  | createGame (inputs : CreateGameInputs) (msgSender : String) (block : Block)
  | userMove (gameId actionType : String) (timestamp : Nat) (msgSender : String)
  | generateObstacleAndScoreUpdate (gameId : String) (timestamp : Nat) (msgSender : String)
  | gameOver (gameId : String) (over : Bool) (timestamp : Nat) (msgSender : String)
  | resetGame (gameId : String) (timestamp : Nat) (msgSender : String) (block : Block)
  deriving Repr

/-- Apply one transition by name, returning the new state and emitted events. -/
def applyAction (hashMessage : String → String) (state : AppState) :
    Action → AppState × List Event
  | .createGame inputs msgSender block =>
      createGame hashMessage state inputs msgSender block
  | .userMove gameId actionType timestamp msgSender =>
      userMove state gameId actionType timestamp msgSender
  | .generateObstacleAndScoreUpdate gameId timestamp msgSender =>
      generateObstacleAndScoreUpdate state gameId timestamp msgSender
  | .gameOver gameId over timestamp msgSender =>
      gameOver state gameId over timestamp msgSender
  | .resetGame gameId timestamp msgSender block =>
      resetGame state gameId timestamp msgSender block

/-- Apply a sequence of transitions, discarding events. -/
def applyActions (hashMessage : String → String) (state : AppState) :
    List Action → AppState
  | [] => state
  | a :: rest => applyActions hashMessage (applyAction hashMessage state a).1 rest

/-! ### Lemmas about the games record -/

theorem lookupGame_setGame_self (s : GameStore) (k : String) (g : Game) :
    lookupGame (setGame s k g) k = some g := by
  induction s with
  | nil => simp [setGame, lookupGame]
  | cons p rest ih =>
      obtain ⟨k0, g0⟩ := p
      by_cases h : k0 = k
      · simp [setGame, lookupGame, h]
      · simp [setGame, lookupGame, h, ih]

theorem lookupGame_setGame_ne (s : GameStore) (k k' : String) (g : Game)
    (h : k' ≠ k) : lookupGame (setGame s k g) k' = lookupGame s k' := by
  induction s with
  | nil => simp [setGame, lookupGame, Ne.symm h]
  | cons p rest ih =>
      obtain ⟨k0, g0⟩ := p
      by_cases h0 : k0 = k
      · subst h0
        simp [setGame, lookupGame, Ne.symm h]
      · by_cases h1 : k0 = k'
        · simp [setGame, lookupGame, h0, h1, h]
        · simp [setGame, lookupGame, h0, h1, ih]

theorem length_setGame (s : GameStore) (k : String) (g : Game) :
    (setGame s k g).length =
      if (lookupGame s k).isSome then s.length else s.length + 1 := by
  induction s with
  | nil => simp [setGame, lookupGame]
  | cons p rest ih =>
      obtain ⟨k0, g0⟩ := p
      by_cases h : k0 = k
      · simp [setGame, lookupGame, h]
      · simp only [setGame, lookupGame, h, if_false, if_neg h, List.length_cons, ih]
        by_cases hl : (lookupGame rest k).isSome <;> simp [hl]

theorem isSome_lookupGame_setGame (s : GameStore) (k k' : String) (g : Game)
    (h : (lookupGame s k').isSome) : (lookupGame (setGame s k g) k').isSome := by
  by_cases hk : k' = k
  · subst hk
    simp [lookupGame_setGame_self]
  · rwa [lookupGame_setGame_ne s k k' g hk]

/-- A per-game predicate holding of every game in the record. -/
def StoreInv (P : Game → Prop) (s : GameStore) : Prop :=
  ∀ k g, lookupGame s k = some g → P g

theorem storeInv_nil (P : Game → Prop) : StoreInv P [] := by
  intro k g h
  simp [lookupGame] at h

theorem storeInv_setGame {P : Game → Prop} {s : GameStore} (hs : StoreInv P s)
    {g : Game} (hg : P g) (k : String) : StoreInv P (setGame s k g) := by
  intro k' g' h
  by_cases hk : k' = k
  · subst hk
    rw [lookupGame_setGame_self] at h
    cases h
    exact hg
  · rw [lookupGame_setGame_ne s k k' g hk] at h
    exact hs k' g' h

/-! ### Claim theorems -/

/-- Claim C1: every guard failure leaves the store unchanged and emits exactly
the corresponding diagnostic event: createGame with caller not equal to the
declared owner (case-insensitive) emits InvalidSigner and creates no game; the
four game-addressed transitions on an absent gameId emit GameNotFound; on an
existing game whose owner differs from the caller they emit UnauthorizedAction
(UnauthorizedReset for resetGame). Existence is checked before ownership (the
absent-id case applies with no condition on ownership), and no guard failure
mutates any game. -/
theorem c1_guard_failures (hashMessage : String → String) (state : AppState)
    (inputs : CreateGameInputs) (gameId actionType : String) (over : Bool)
    (timestamp : Nat) (msgSender : String) (block : Block) :
    (toLowerCase msgSender ≠ toLowerCase inputs.owner →
      createGame hashMessage state inputs msgSender block =
        (state, [{ name := "InvalidSigner",
                   value := .str (msgSender ++ " is not authorized to create a game.") }])) ∧
    (lookupGame state.games gameId = none →
      userMove state gameId actionType timestamp msgSender =
        (state, [{ name := "GameNotFound",
                   value := .str ("Game ID " ++ gameId ++ " does not exist.") }]) ∧
      generateObstacleAndScoreUpdate state gameId timestamp msgSender =
        (state, [{ name := "GameNotFound",
                   value := .str ("Game ID " ++ gameId ++ " does not exist.") }]) ∧
      gameOver state gameId over timestamp msgSender =
        (state, [{ name := "GameNotFound",
                   value := .str ("Game ID " ++ gameId ++ " does not exist.") }]) ∧
      resetGame state gameId timestamp msgSender block =
        (state, [{ name := "GameNotFound",
                   value := .str ("Game ID " ++ gameId ++ " does not exist.") }])) ∧
    (∀ game, lookupGame state.games gameId = some game →
      toLowerCase game.owner ≠ toLowerCase msgSender →
      userMove state gameId actionType timestamp msgSender =
        (state, [{ name := "UnauthorizedAction",
                   value := .str (msgSender ++ " is not authorized to perform actions in game "
                     ++ gameId ++ ".") }]) ∧
      generateObstacleAndScoreUpdate state gameId timestamp msgSender =
        (state, [{ name := "UnauthorizedAction",
                   value := .str (msgSender ++ " is not authorized to update the game "
                     ++ gameId ++ ".") }]) ∧
      gameOver state gameId over timestamp msgSender =
        (state, [{ name := "UnauthorizedAction",
                   value := .str (msgSender ++ " is not authorized to end game "
                     ++ gameId ++ ".") }]) ∧
      resetGame state gameId timestamp msgSender block =
        (state, [{ name := "UnauthorizedReset",
                   value := .str (msgSender ++ " is not authorized to reset the game "
                     ++ gameId ++ ".") }])) := by
  refine ⟨?_, ?_, ?_⟩
  · intro h
    simp [createGame, h]
  · intro h
    exact ⟨by simp [userMove, h], by simp [generateObstacleAndScoreUpdate, h],
           by simp [gameOver, h], by simp [resetGame, h]⟩
  · intro game hg hown
    exact ⟨by simp [userMove, hg, hown], by simp [generateObstacleAndScoreUpdate, hg, hown],
           by simp [gameOver, hg, hown], by simp [resetGame, hg, hown]⟩

/-- Witness for C1 at concrete inputs: a wrong-signer create on the empty
store, an absent-id move, and a non-owner move on a one-game store. -/
theorem c1_guard_failures_witness :
    (createGame (fun s => s) initialState { owner := "0xA", initialSpeed := 2, startedAt := 100 }
        "0xB" { timestamp := 7 } =
      (initialState, [{ name := "InvalidSigner",
                        value := .str "0xB is not authorized to create a game." }])) ∧
    (userMove initialState "g1" "moveLeft" 5 "0xA" =
      (initialState, [{ name := "GameNotFound",
                        value := .str "Game ID g1 does not exist." }])) ∧
    (userMove { games := [("g1", { gameId := "g1", owner := "0xA", carPosition := 1, speed := 2,
                                   score := -1, obstacle := { lane := 1, z := -70 },
                                   isGameOver := false, startedAt := 100, endedAt := none })] }
        "g1" "moveLeft" 5 "0xB" =
      ({ games := [("g1", { gameId := "g1", owner := "0xA", carPosition := 1, speed := 2,
                            score := -1, obstacle := { lane := 1, z := -70 },
                            isGameOver := false, startedAt := 100, endedAt := none })] },
       [{ name := "UnauthorizedAction",
          value := .str "0xB is not authorized to perform actions in game g1." }])) :=
  ⟨(c1_guard_failures (fun s => s) initialState { owner := "0xA", initialSpeed := 2, startedAt := 100 }
      "g1" "moveLeft" false 5 "0xB" { timestamp := 7 }).1 (by decide),
   ((c1_guard_failures (fun s => s) initialState { owner := "0xA", initialSpeed := 2, startedAt := 100 }
      "g1" "moveLeft" false 5 "0xA" { timestamp := 7 }).2.1 (by decide)).1,
   ((c1_guard_failures (fun s => s)
      { games := [("g1", { gameId := "g1", owner := "0xA", carPosition := 1, speed := 2,
                           score := -1, obstacle := { lane := 1, z := -70 },
                           isGameOver := false, startedAt := 100, endedAt := none })] }
      { owner := "0xA", initialSpeed := 2, startedAt := 100 }
      "g1" "moveLeft" false 5 "0xB" { timestamp := 7 }).2.2
      { gameId := "g1", owner := "0xA", carPosition := 1, speed := 2, score := -1,
        obstacle := { lane := 1, z := -70 }, isGameOver := false, startedAt := 100,
        endedAt := none } (by decide) (by decide)).1⟩

/-- Claim C2: past the guards, userMove with moveLeft at carPosition 1 sets it
to 0 and emits CarMovedLeft(0); moveLeft at 0 changes nothing and emits no
event; moveRight at 0 sets it to 1 and emits CarMovedRight(1); moveRight at 1
changes nothing and emits no event; any other actionType leaves the store
unchanged and emits InvalidAction. The mutating cases rewrite only the
addressed key, changing only carPosition. -/
theorem c2_userMove_semantics (state : AppState) (gameId actionType : String)
    (timestamp : Nat) (msgSender : String) (game : Game)
    (hg : lookupGame state.games gameId = some game)
    (hown : toLowerCase game.owner = toLowerCase msgSender) :
    (actionType = "moveLeft" → game.carPosition = 1 →
      userMove state gameId actionType timestamp msgSender =
        ({ games := setGame state.games gameId { game with carPosition := 0 } },
         [{ name := "CarMovedLeft", value := .num 0 }])) ∧
    (actionType = "moveLeft" → game.carPosition = 0 →
      userMove state gameId actionType timestamp msgSender = (state, [])) ∧
    (actionType = "moveRight" → game.carPosition = 0 →
      userMove state gameId actionType timestamp msgSender =
        ({ games := setGame state.games gameId { game with carPosition := 1 } },
         [{ name := "CarMovedRight", value := .num 1 }])) ∧
    (actionType = "moveRight" → game.carPosition = 1 →
      userMove state gameId actionType timestamp msgSender = (state, [])) ∧
    (actionType ≠ "moveLeft" → actionType ≠ "moveRight" →
      userMove state gameId actionType timestamp msgSender =
        (state, [{ name := "InvalidAction",
                   value := .str ("Game " ++ gameId ++ ": Invalid action type "
                     ++ actionType ++ ".") }])) := by
  refine ⟨?_, ?_, ?_, ?_, ?_⟩
  · intro ha hp
    simp [userMove, hg, hown, ha, hp]
  · intro ha hp
    simp [userMove, hg, hown, ha, hp]
  · intro ha hp
    simp [userMove, hg, hown, ha, hp]
  · intro ha hp
    simp [userMove, hg, hown, ha, hp]
  · intro ha1 ha2
    simp [userMove, hg, hown, ha1, ha2]

/-- Witness for C2: a moveLeft at carPosition 1 by the owner under different
letter case toggles the car to lane 0 and emits CarMovedLeft(0). -/
theorem c2_userMove_semantics_witness :
    userMove { games := [("g1", { gameId := "g1", owner := "0xA", carPosition := 1, speed := 2,
                                  score := -1, obstacle := { lane := 1, z := -70 },
                                  isGameOver := false, startedAt := 100, endedAt := none })] }
        "g1" "moveLeft" 5 "0xa" =
      ({ games := [("g1", { gameId := "g1", owner := "0xA", carPosition := 0, speed := 2,
                            score := -1, obstacle := { lane := 1, z := -70 },
                            isGameOver := false, startedAt := 100, endedAt := none })] },
       [{ name := "CarMovedLeft", value := .num 0 }]) :=
  (c2_userMove_semantics
      { games := [("g1", { gameId := "g1", owner := "0xA", carPosition := 1, speed := 2,
                           score := -1, obstacle := { lane := 1, z := -70 },
                           isGameOver := false, startedAt := 100, endedAt := none })] }
      "g1" "moveLeft" 5 "0xa"
      { gameId := "g1", owner := "0xA", carPosition := 1, speed := 2, score := -1,
        obstacle := { lane := 1, z := -70 }, isGameOver := false, startedAt := 100,
        endedAt := none }
      (by decide) (by decide)).1 rfl rfl

/-- Claim C3: past the guards, generateObstacleAndScoreUpdate unconditionally
(no condition on isGameOver) replaces the obstacle by lane timestamp mod 2 at
z = -70, adds the current speed to the score, and emits ObstacleGenerated then
ScoreUpdated with the new score; no other field changes, and the score strictly
increases whenever the speed is positive. -/
theorem c3_generateObstacleAndScoreUpdate_semantics (state : AppState)
    (gameId : String) (timestamp : Nat) (msgSender : String) (game : Game)
    (hg : lookupGame state.games gameId = some game)
    (hown : toLowerCase game.owner = toLowerCase msgSender) :
    generateObstacleAndScoreUpdate state gameId timestamp msgSender =
      ({ games := setGame state.games gameId
           { game with obstacle := { lane := timestamp % 2, z := -70 },
                       score := game.score + (game.speed : Int) } },
       [{ name := "ObstacleGenerated",
          value := .str ("New obstacle generated in lane " ++ toString (timestamp % 2)) },
        { name := "ScoreUpdated",
          value := .str ("Game " ++ gameId ++ ": Score is now "
            ++ toString (game.score + (game.speed : Int)) ++ ".") }]) ∧
    (0 < game.speed → game.score < game.score + (game.speed : Int)) := by
  constructor
  · simp [generateObstacleAndScoreUpdate, hg, hown, generateObstacles]
  · intro hsp
    omega

/-- Witness for C3: on a one-game store with score -1 and speed 2, a call with
timestamp 4 moves the obstacle to lane 0 and raises the score to 1. -/
theorem c3_generateObstacleAndScoreUpdate_semantics_witness :
    generateObstacleAndScoreUpdate
        { games := [("g1", { gameId := "g1", owner := "0xA", carPosition := 1, speed := 2,
                             score := -1, obstacle := { lane := 1, z := -70 },
                             isGameOver := false, startedAt := 100, endedAt := none })] }
        "g1" 4 "0xA" =
      ({ games := [("g1", { gameId := "g1", owner := "0xA", carPosition := 1, speed := 2,
                            score := 1, obstacle := { lane := 0, z := -70 },
                            isGameOver := false, startedAt := 100, endedAt := none })] },
       [{ name := "ObstacleGenerated", value := .str "New obstacle generated in lane 0" },
        { name := "ScoreUpdated", value := .str "Game g1: Score is now 1." }]) ∧
    (-1 : Int) < 1 :=
  ⟨(c3_generateObstacleAndScoreUpdate_semantics
      { games := [("g1", { gameId := "g1", owner := "0xA", carPosition := 1, speed := 2,
                           score := -1, obstacle := { lane := 1, z := -70 },
                           isGameOver := false, startedAt := 100, endedAt := none })] }
      "g1" 4 "0xA"
      { gameId := "g1", owner := "0xA", carPosition := 1, speed := 2, score := -1,
        obstacle := { lane := 1, z := -70 }, isGameOver := false, startedAt := 100,
        endedAt := none }
      (by decide) (by decide)).1,
   (c3_generateObstacleAndScoreUpdate_semantics
      { games := [("g1", { gameId := "g1", owner := "0xA", carPosition := 1, speed := 2,
                           score := -1, obstacle := { lane := 1, z := -70 },
                           isGameOver := false, startedAt := 100, endedAt := none })] }
      "g1" 4 "0xA"
      { gameId := "g1", owner := "0xA", carPosition := 1, speed := 2, score := -1,
        obstacle := { lane := 1, z := -70 }, isGameOver := false, startedAt := 100,
        endedAt := none }
      (by decide) (by decide)).2 (by decide)⟩

/-- The game id derived inside createGame from the caller identity, the block
timestamp, and the current number of games, via the external hash. -/
def derivedGameId (hashMessage : String → String) (state : AppState)
    (msgSender : String) (block : Block) : String :=
  hashMessage
    (msgSender ++ "::" ++ toString block.timestamp ++ "::" ++ toString state.games.length)

/-- Claim C4: when the caller equals the declared owner (case-insensitive) and
the derived id is fresh, createGame inserts exactly one new Game at that id,
with carPosition 1, speed initialSpeed, score -1, obstacle from the block
timestamp, isGameOver false, startedAt from the input and endedAt null; it
emits GameCreated carrying the id, leaves every pre-existing game unchanged,
and grows the store by one key. -/
theorem c4_createGame_success (hashMessage : String → String) (state : AppState)
    (inputs : CreateGameInputs) (msgSender : String) (block : Block)
    (hauth : toLowerCase msgSender = toLowerCase inputs.owner)
    (hfresh : lookupGame state.games (derivedGameId hashMessage state msgSender block) = none) :
    createGame hashMessage state inputs msgSender block =
      ({ games := setGame state.games (derivedGameId hashMessage state msgSender block)
           { gameId := derivedGameId hashMessage state msgSender block, owner := inputs.owner,
             carPosition := 1, speed := inputs.initialSpeed, score := -1,
             obstacle := { lane := block.timestamp % 2, z := -70 }, isGameOver := false,
             startedAt := inputs.startedAt, endedAt := none } },
       [{ name := "GameCreated", value := .str (derivedGameId hashMessage state msgSender block) }]) ∧
    lookupGame (createGame hashMessage state inputs msgSender block).1.games
        (derivedGameId hashMessage state msgSender block) =
      some { gameId := derivedGameId hashMessage state msgSender block, owner := inputs.owner,
             carPosition := 1, speed := inputs.initialSpeed, score := -1,
             obstacle := { lane := block.timestamp % 2, z := -70 }, isGameOver := false,
             startedAt := inputs.startedAt, endedAt := none } ∧
    (∀ k, k ≠ derivedGameId hashMessage state msgSender block →
      lookupGame (createGame hashMessage state inputs msgSender block).1.games k =
        lookupGame state.games k) ∧
    (createGame hashMessage state inputs msgSender block).1.games.length =
      state.games.length + 1 := by
  have hmain : createGame hashMessage state inputs msgSender block =
      ({ games := setGame state.games (derivedGameId hashMessage state msgSender block)
           { gameId := derivedGameId hashMessage state msgSender block, owner := inputs.owner,
             carPosition := 1, speed := inputs.initialSpeed, score := -1,
             obstacle := { lane := block.timestamp % 2, z := -70 }, isGameOver := false,
             startedAt := inputs.startedAt, endedAt := none } },
       [{ name := "GameCreated",
          value := .str (derivedGameId hashMessage state msgSender block) }]) := by
    simp [createGame, hauth, derivedGameId, generateObstacles]
  refine ⟨hmain, ?_, ?_, ?_⟩
  · rw [hmain]
    exact lookupGame_setGame_self state.games _ _
  · intro k hk
    rw [hmain]
    exact lookupGame_setGame_ne state.games _ k _ hk
  · rw [hmain]
    simp [length_setGame, hfresh]

/-- Witness for C4: creating a game on the empty store with identity hash,
owner 0xA, initial speed 2, started at 100, in a block at timestamp 7. -/
theorem c4_createGame_success_witness :
    createGame (fun s => s) initialState { owner := "0xA", initialSpeed := 2, startedAt := 100 }
        "0xA" { timestamp := 7 } =
      ({ games := [("0xA::7::0",
                    { gameId := "0xA::7::0", owner := "0xA", carPosition := 1, speed := 2,
                      score := -1, obstacle := { lane := 1, z := -70 }, isGameOver := false,
                      startedAt := 100, endedAt := none })] },
       [{ name := "GameCreated", value := .str "0xA::7::0" }]) ∧
    (createGame (fun s => s) initialState { owner := "0xA", initialSpeed := 2, startedAt := 100 }
        "0xA" { timestamp := 7 }).1.games.length = 1 := by
  have h := c4_createGame_success (fun s => s) initialState
    { owner := "0xA", initialSpeed := 2, startedAt := 100 } "0xA" { timestamp := 7 }
    (by decide) (by decide)
  exact ⟨h.1, h.2.2.2⟩

/-- Claim C5: past the guards, gameOver sets isGameOver to the input boolean
and endedAt to the input timestamp unconditionally (also when over is false),
emits a GameOver event describing the new over/active status, and changes no
other field. -/
theorem c5_gameOver_semantics (state : AppState) (gameId : String) (over : Bool)
    (timestamp : Nat) (msgSender : String) (game : Game)
    (hg : lookupGame state.games gameId = some game)
    (hown : toLowerCase game.owner = toLowerCase msgSender) :
    gameOver state gameId over timestamp msgSender =
      ({ games := setGame state.games gameId
           { game with isGameOver := over, endedAt := some timestamp } },
       [{ name := "GameOver",
          value := .str ("Game " ++ gameId ++ " is now "
            ++ (if over then "over" else "active") ++ ".") }]) := by
  simp [gameOver, hg, hown]

/-- Witness for C5: a call with over = false still overwrites endedAt with the
supplied timestamp while setting isGameOver to false. -/
theorem c5_gameOver_semantics_witness :
    gameOver { games := [("g1", { gameId := "g1", owner := "0xA", carPosition := 1, speed := 2,
                                  score := -1, obstacle := { lane := 1, z := -70 },
                                  isGameOver := true, startedAt := 100, endedAt := none })] }
        "g1" false 500 "0xA" =
      ({ games := [("g1", { gameId := "g1", owner := "0xA", carPosition := 1, speed := 2,
                            score := -1, obstacle := { lane := 1, z := -70 },
                            isGameOver := false, startedAt := 100, endedAt := some 500 })] },
       [{ name := "GameOver", value := .str "Game g1 is now active." }]) :=
  c5_gameOver_semantics
    { games := [("g1", { gameId := "g1", owner := "0xA", carPosition := 1, speed := 2,
                         score := -1, obstacle := { lane := 1, z := -70 },
                         isGameOver := true, startedAt := 100, endedAt := none })] }
    "g1" false 500 "0xA"
    { gameId := "g1", owner := "0xA", carPosition := 1, speed := 2, score := -1,
      obstacle := { lane := 1, z := -70 }, isGameOver := true, startedAt := 100,
      endedAt := none }
    (by decide) (by decide)

/-- Claim C6: past the guards, resetGame rebuilds the Game keeping gameId,
owner and startedAt from the current record while forcing carPosition 1,
speed 1, score 0, isGameOver false, endedAt null and an obstacle generated
from the ambient block timestamp; the caller-supplied timestamp input is
ignored (the result does not depend on it); a GameReset event is emitted. -/
theorem c6_resetGame_semantics (state : AppState) (gameId : String)
    (timestamp : Nat) (msgSender : String) (block : Block) (game : Game)
    (hg : lookupGame state.games gameId = some game)
    (hown : toLowerCase game.owner = toLowerCase msgSender) :
    resetGame state gameId timestamp msgSender block =
      ({ games := setGame state.games gameId
           { gameId := game.gameId, owner := game.owner, carPosition := 1, speed := 1,
             score := 0, obstacle := { lane := block.timestamp % 2, z := -70 },
             isGameOver := false, startedAt := game.startedAt, endedAt := none } },
       [{ name := "GameReset", value := .str ("Game " ++ gameId ++ " has been reset.") }]) ∧
    (∀ t1 t2 : Nat, resetGame state gameId t1 msgSender block =
      resetGame state gameId t2 msgSender block) := by
  constructor
  · simp [resetGame, hg, hown, generateObstacles]
  · intro t1 t2
    rfl

/-- Witness for C6: resetting a finished game restores the initial-like fields
and ignores the caller-supplied timestamp 999, taking lane from block time 8. -/
theorem c6_resetGame_semantics_witness :
    resetGame { games := [("g1", { gameId := "g1", owner := "0xA", carPosition := 0, speed := 5,
                                   score := 42, obstacle := { lane := 1, z := -70 },
                                   isGameOver := true, startedAt := 100, endedAt := some 500 })] }
        "g1" 999 "0xA" { timestamp := 8 } =
      ({ games := [("g1", { gameId := "g1", owner := "0xA", carPosition := 1, speed := 1,
                            score := 0, obstacle := { lane := 0, z := -70 },
                            isGameOver := false, startedAt := 100, endedAt := none })] },
       [{ name := "GameReset", value := .str "Game g1 has been reset." }]) :=
  (c6_resetGame_semantics
    { games := [("g1", { gameId := "g1", owner := "0xA", carPosition := 0, speed := 5,
                         score := 42, obstacle := { lane := 1, z := -70 },
                         isGameOver := true, startedAt := 100, endedAt := some 500 })] }
    "g1" 999 "0xA" { timestamp := 8 }
    { gameId := "g1", owner := "0xA", carPosition := 0, speed := 5, score := 42,
      obstacle := { lane := 1, z := -70 }, isGameOver := true, startedAt := 100,
      endedAt := some 500 }
    (by decide) (by decide)).1

/-- Claim C9: resetting the same game twice in a row as its owner yields the
same resulting fields — carPosition 1, speed 1, score 0, isGameOver false,
endedAt null, with gameId, owner and startedAt preserved — except the
obstacle, which comes from each call's block timestamp and coincides when the
two block timestamps are equal. -/
theorem c9_resetGame_idempotent (state : AppState) (gameId : String)
    (t1 t2 : Nat) (msgSender : String) (b1 b2 : Block) (game : Game)
    (hg : lookupGame state.games gameId = some game)
    (hown : toLowerCase game.owner = toLowerCase msgSender) :
    lookupGame (resetGame state gameId t1 msgSender b1).1.games gameId =
      some { gameId := game.gameId, owner := game.owner, carPosition := 1, speed := 1,
             score := 0, obstacle := generateObstacles b1.timestamp, isGameOver := false,
             startedAt := game.startedAt, endedAt := none } ∧
    lookupGame
        (resetGame (resetGame state gameId t1 msgSender b1).1 gameId t2 msgSender b2).1.games
        gameId =
      some { gameId := game.gameId, owner := game.owner, carPosition := 1, speed := 1,
             score := 0, obstacle := generateObstacles b2.timestamp, isGameOver := false,
             startedAt := game.startedAt, endedAt := none } ∧
    (b1.timestamp = b2.timestamp →
      lookupGame
          (resetGame (resetGame state gameId t1 msgSender b1).1 gameId t2 msgSender b2).1.games
          gameId =
        lookupGame (resetGame state gameId t1 msgSender b1).1.games gameId) := by
  have h1 : (resetGame state gameId t1 msgSender b1).1 =
      { games := setGame state.games gameId
          { gameId := game.gameId, owner := game.owner, carPosition := 1, speed := 1,
            score := 0, obstacle := generateObstacles b1.timestamp, isGameOver := false,
            startedAt := game.startedAt, endedAt := none } } := by
    simp [resetGame, hg, hown]
  have hl1 : lookupGame (resetGame state gameId t1 msgSender b1).1.games gameId =
      some { gameId := game.gameId, owner := game.owner, carPosition := 1, speed := 1,
             score := 0, obstacle := generateObstacles b1.timestamp, isGameOver := false,
             startedAt := game.startedAt, endedAt := none } := by
    rw [h1]
    exact lookupGame_setGame_self state.games gameId _
  have hl2 : lookupGame
      (resetGame (resetGame state gameId t1 msgSender b1).1 gameId t2 msgSender b2).1.games
      gameId =
      some { gameId := game.gameId, owner := game.owner, carPosition := 1, speed := 1,
             score := 0, obstacle := generateObstacles b2.timestamp, isGameOver := false,
             startedAt := game.startedAt, endedAt := none } := by
    rw [h1]
    simp [resetGame, lookupGame_setGame_self, hown]
  refine ⟨hl1, hl2, ?_⟩
  intro ht
  rw [hl1, hl2, ht]

/-- Witness for C9: double reset with block timestamps 8 then 9; the second
result keeps the reset fields and takes its obstacle lane from timestamp 9. -/
theorem c9_resetGame_idempotent_witness :
    lookupGame
        (resetGame
          (resetGame
            { games := [("g1", { gameId := "g1", owner := "0xA", carPosition := 0, speed := 5,
                                 score := 42, obstacle := { lane := 1, z := -70 },
                                 isGameOver := true, startedAt := 100, endedAt := some 500 })] }
            "g1" 1 "0xA" { timestamp := 8 }).1
          "g1" 2 "0xA" { timestamp := 9 }).1.games
        "g1" =
      some { gameId := "g1", owner := "0xA", carPosition := 1, speed := 1, score := 0,
             obstacle := { lane := 1, z := -70 }, isGameOver := false, startedAt := 100,
             endedAt := none } :=
  (c9_resetGame_idempotent
    { games := [("g1", { gameId := "g1", owner := "0xA", carPosition := 0, speed := 5,
                         score := 42, obstacle := { lane := 1, z := -70 },
                         isGameOver := true, startedAt := 100, endedAt := some 500 })] }
    "g1" 1 2 "0xA" { timestamp := 8 } { timestamp := 9 }
    { gameId := "g1", owner := "0xA", carPosition := 0, speed := 5, score := 42,
      obstacle := { lane := 1, z := -70 }, isGameOver := true, startedAt := 100,
      endedAt := some 500 }
    (by decide) (by decide)).2.1

/-- The per-game invariant of claim C7: the car position and the obstacle lane
are both in the set containing 0 and 1. -/
def laneCarInv (g : Game) : Prop :=
  (g.carPosition = 0 ∨ g.carPosition = 1) ∧ (g.obstacle.lane = 0 ∨ g.obstacle.lane = 1)

theorem laneCarInv_applyAction (hashMessage : String → String) (s : AppState)
    (hs : StoreInv laneCarInv s.games) (a : Action) :
    StoreInv laneCarInv ((applyAction hashMessage s a).1).games := by
  cases a with
  | createGame inputs msgSender block =>
      by_cases hauth : toLowerCase msgSender = toLowerCase inputs.owner
      · simp [applyAction, createGame, hauth]
        exact storeInv_setGame hs
          ⟨Or.inr rfl, Nat.mod_two_eq_zero_or_one block.timestamp⟩ _
      · simpa [applyAction, createGame, hauth] using hs
  | userMove gameId actionType timestamp msgSender =>
      cases hl : lookupGame s.games gameId with
      | none => simpa [applyAction, userMove, hl] using hs
      | some game =>
          have hgame : laneCarInv game := hs gameId game hl
          by_cases hown : toLowerCase game.owner = toLowerCase msgSender
          · by_cases ha1 : actionType = "moveLeft"
            · by_cases hp : game.carPosition = 1
              · simp [applyAction, userMove, hl, hown, ha1, hp]
                refine storeInv_setGame hs ?_ gameId
                exact ⟨Or.inl rfl, hgame.2⟩
              · simpa [applyAction, userMove, hl, hown, ha1, hp] using hs
            · by_cases ha2 : actionType = "moveRight"
              · by_cases hp : game.carPosition = 0
                · simp [applyAction, userMove, hl, hown, ha1, ha2, hp]
                  refine storeInv_setGame hs ?_ gameId
                  exact ⟨Or.inr rfl, hgame.2⟩
                · simpa [applyAction, userMove, hl, hown, ha1, ha2, hp] using hs
              · simpa [applyAction, userMove, hl, hown, ha1, ha2] using hs
          · simpa [applyAction, userMove, hl, hown] using hs
  | generateObstacleAndScoreUpdate gameId timestamp msgSender =>
      cases hl : lookupGame s.games gameId with
      | none => simpa [applyAction, generateObstacleAndScoreUpdate, hl] using hs
      | some game =>
          have hgame : laneCarInv game := hs gameId game hl
          by_cases hown : toLowerCase game.owner = toLowerCase msgSender
          · simp [applyAction, generateObstacleAndScoreUpdate, hl, hown]
            refine storeInv_setGame hs ?_ gameId
            exact ⟨hgame.1, Nat.mod_two_eq_zero_or_one timestamp⟩
          · simpa [applyAction, generateObstacleAndScoreUpdate, hl, hown] using hs
  | gameOver gameId over timestamp msgSender =>
      cases hl : lookupGame s.games gameId with
      | none => simpa [applyAction, gameOver, hl] using hs
      | some game =>
          have hgame : laneCarInv game := hs gameId game hl
          by_cases hown : toLowerCase game.owner = toLowerCase msgSender
          · simp [applyAction, gameOver, hl, hown]
            refine storeInv_setGame hs ?_ gameId
            exact ⟨hgame.1, hgame.2⟩
          · simpa [applyAction, gameOver, hl, hown] using hs
  | resetGame gameId timestamp msgSender block =>
      cases hl : lookupGame s.games gameId with
      | none => simpa [applyAction, resetGame, hl] using hs
      | some game =>
          by_cases hown : toLowerCase game.owner = toLowerCase msgSender
          · simp [applyAction, resetGame, hl, hown]
            exact storeInv_setGame hs
              ⟨Or.inr rfl, Nat.mod_two_eq_zero_or_one block.timestamp⟩ gameId
          · simpa [applyAction, resetGame, hl, hown] using hs

theorem laneCarInv_applyActions (hashMessage : String → String) (as : List Action)
    (s : AppState) (hs : StoreInv laneCarInv s.games) :
    StoreInv laneCarInv (applyActions hashMessage s as).games := by
  induction as generalizing s with
  | nil => exact hs
  | cons a rest ih => exact ih _ (laneCarInv_applyAction hashMessage s hs a)

/-- Claim C7: in every store reachable from the initial empty store by any
sequence of the five transitions, every game's carPosition is 0 or 1 and every
game's obstacle lane is 0 or 1. -/
theorem c7_reachable_lane_carPosition (hashMessage : String → String)
    (as : List Action) (k : String) (g : Game)
    (hg : lookupGame (applyActions hashMessage initialState as).games k = some g) :
    (g.carPosition = 0 ∨ g.carPosition = 1) ∧
    (g.obstacle.lane = 0 ∨ g.obstacle.lane = 1) :=
  laneCarInv_applyActions hashMessage as initialState (storeInv_nil laneCarInv) k g hg

/-- Witness for C7: after a create and a moveLeft, the stored game has
carPosition 0 and obstacle lane 1, both in range. -/
theorem c7_reachable_lane_carPosition_witness :
    (({ gameId := "0xA::7::0", owner := "0xA", carPosition := 0, speed := 2, score := -1,
        obstacle := { lane := 1, z := -70 }, isGameOver := false, startedAt := 100,
        endedAt := none } : Game).carPosition = 0 ∨
     ({ gameId := "0xA::7::0", owner := "0xA", carPosition := 0, speed := 2, score := -1,
        obstacle := { lane := 1, z := -70 }, isGameOver := false, startedAt := 100,
        endedAt := none } : Game).carPosition = 1) ∧
    (({ gameId := "0xA::7::0", owner := "0xA", carPosition := 0, speed := 2, score := -1,
        obstacle := { lane := 1, z := -70 }, isGameOver := false, startedAt := 100,
        endedAt := none } : Game).obstacle.lane = 0 ∨
     ({ gameId := "0xA::7::0", owner := "0xA", carPosition := 0, speed := 2, score := -1,
        obstacle := { lane := 1, z := -70 }, isGameOver := false, startedAt := 100,
        endedAt := none } : Game).obstacle.lane = 1) :=
  c7_reachable_lane_carPosition (fun s => s)
    [Action.createGame { owner := "0xA", initialSpeed := 2, startedAt := 100 } "0xA"
       { timestamp := 7 },
     Action.userMove "0xA::7::0" "moveLeft" 11 "0xA"]
    "0xA::7::0"
    { gameId := "0xA::7::0", owner := "0xA", carPosition := 0, speed := 2, score := -1,
      obstacle := { lane := 1, z := -70 }, isGameOver := false, startedAt := 100,
      endedAt := none }
    (by decide)

/-- The schema-level assumption of claim C8: the initialSpeed input of every
createGame action is a positive integer, as the spec declares; the other
transitions carry no speed input. -/
def actionSpeedPos : Action → Prop
  | .createGame inputs _ _ => 0 < inputs.initialSpeed
  | _ => True

/-- The per-game invariant of claim C8: the speed is a positive integer. -/
def speedPos (g : Game) : Prop := 0 < g.speed

theorem speedPos_applyAction (hashMessage : String → String) (s : AppState)
    (hs : StoreInv speedPos s.games) (a : Action) (ha : actionSpeedPos a) :
    StoreInv speedPos ((applyAction hashMessage s a).1).games := by
  cases a with
  | createGame inputs msgSender block =>
      by_cases hauth : toLowerCase msgSender = toLowerCase inputs.owner
      · simp [applyAction, createGame, hauth]
        refine storeInv_setGame hs ?_ _
        exact ha
      · simpa [applyAction, createGame, hauth] using hs
  | userMove gameId actionType timestamp msgSender =>
      cases hl : lookupGame s.games gameId with
      | none => simpa [applyAction, userMove, hl] using hs
      | some game =>
          have hgame : speedPos game := hs gameId game hl
          by_cases hown : toLowerCase game.owner = toLowerCase msgSender
          · by_cases ha1 : actionType = "moveLeft"
            · by_cases hp : game.carPosition = 1
              · simp [applyAction, userMove, hl, hown, ha1, hp]
                refine storeInv_setGame hs ?_ gameId
                exact hgame
              · simpa [applyAction, userMove, hl, hown, ha1, hp] using hs
            · by_cases ha2 : actionType = "moveRight"
              · by_cases hp : game.carPosition = 0
                · simp [applyAction, userMove, hl, hown, ha1, ha2, hp]
                  refine storeInv_setGame hs ?_ gameId
                  exact hgame
                · simpa [applyAction, userMove, hl, hown, ha1, ha2, hp] using hs
              · simpa [applyAction, userMove, hl, hown, ha1, ha2] using hs
          · simpa [applyAction, userMove, hl, hown] using hs
  | generateObstacleAndScoreUpdate gameId timestamp msgSender =>
      cases hl : lookupGame s.games gameId with
      | none => simpa [applyAction, generateObstacleAndScoreUpdate, hl] using hs
      | some game =>
          have hgame : speedPos game := hs gameId game hl
          by_cases hown : toLowerCase game.owner = toLowerCase msgSender
          · simp [applyAction, generateObstacleAndScoreUpdate, hl, hown]
            refine storeInv_setGame hs ?_ gameId
            exact hgame
          · simpa [applyAction, generateObstacleAndScoreUpdate, hl, hown] using hs
  | gameOver gameId over timestamp msgSender =>
      cases hl : lookupGame s.games gameId with
      | none => simpa [applyAction, gameOver, hl] using hs
      | some game =>
          have hgame : speedPos game := hs gameId game hl
          by_cases hown : toLowerCase game.owner = toLowerCase msgSender
          · simp [applyAction, gameOver, hl, hown]
            refine storeInv_setGame hs ?_ gameId
            exact hgame
          · simpa [applyAction, gameOver, hl, hown] using hs
  | resetGame gameId timestamp msgSender block =>
      cases hl : lookupGame s.games gameId with
      | none => simpa [applyAction, resetGame, hl] using hs
      | some game =>
          by_cases hown : toLowerCase game.owner = toLowerCase msgSender
          · simp [applyAction, resetGame, hl, hown]
            refine storeInv_setGame hs ?_ gameId
            exact Nat.one_pos
          · simpa [applyAction, resetGame, hl, hown] using hs

theorem speedPos_applyActions (hashMessage : String → String) (as : List Action)
    (s : AppState) (hs : StoreInv speedPos s.games)
    (has : ∀ a ∈ as, actionSpeedPos a) :
    StoreInv speedPos (applyActions hashMessage s as).games := by
  induction as generalizing s with
  | nil => exact hs
  | cons a rest ih =>
      exact ih _ (speedPos_applyAction hashMessage s hs a (has a (List.mem_cons_self a rest)))
        (fun a' ha' => has a' (List.mem_cons_of_mem a ha'))

/-- Claim C8: in every store reachable from the initial empty store by actions
whose createGame initialSpeed inputs are positive, every game's speed is a
positive integer: it is set to the positive initialSpeed at creation, reset to
1 by resetGame, and never modified by any other transition. -/
theorem c8_reachable_speed_pos (hashMessage : String → String) (as : List Action)
    (has : ∀ a ∈ as, actionSpeedPos a) (k : String) (g : Game)
    (hg : lookupGame (applyActions hashMessage initialState as).games k = some g) :
    0 < g.speed :=
  speedPos_applyActions hashMessage as initialState (storeInv_nil speedPos) has k g hg

/-- Witness for C8: after a create with initialSpeed 2 and a reset, the stored
game's speed is positive. -/
theorem c8_reachable_speed_pos_witness :
    0 < ({ gameId := "0xA::7::0", owner := "0xA", carPosition := 1, speed := 1, score := 0,
           obstacle := { lane := 0, z := -70 }, isGameOver := false, startedAt := 100,
           endedAt := none } : Game).speed :=
  c8_reachable_speed_pos (fun s => s)
    [Action.createGame { owner := "0xA", initialSpeed := 2, startedAt := 100 } "0xA"
       { timestamp := 7 },
     Action.resetGame "0xA::7::0" 11 "0xA" { timestamp := 12 }]
    (by
      intro a ha
      cases ha with
      | head => exact (by decide : (0 : Nat) < 2)
      | tail _ h =>
          cases h with
          | head => exact trivial
          | tail _ h0 => cases h0)
    "0xA::7::0"
    { gameId := "0xA::7::0", owner := "0xA", carPosition := 1, speed := 1, score := 0,
      obstacle := { lane := 0, z := -70 }, isGameOver := false, startedAt := 100,
      endedAt := none }
    (by decide)

/-- The key addressed by a transition: the freshly derived id for createGame,
the input gameId for the other four transitions. -/
def addressedId (hashMessage : String → String) (state : AppState) : Action → String
  | .createGame _ msgSender block => derivedGameId hashMessage state msgSender block
  | .userMove gameId _ _ _ => gameId
  | .generateObstacleAndScoreUpdate gameId _ _ => gameId
  | .gameOver gameId _ _ _ => gameId
  | .resetGame gameId _ _ _ => gameId

/-- A createGame action that passes its signer guard. -/
def createSucceeds : Action → Prop
  | .createGame inputs msgSender _ => toLowerCase msgSender = toLowerCase inputs.owner
  | _ => False

theorem applyAction_shape (hashMessage : String → String) (s : AppState) (a : Action) :
    (applyAction hashMessage s a).1 = s ∨
    ∃ g', (applyAction hashMessage s a).1.games =
        setGame s.games (addressedId hashMessage s a) g' ∧
      (createSucceeds a ∨ (lookupGame s.games (addressedId hashMessage s a)).isSome) := by
  cases a with
  | createGame inputs msgSender block =>
      by_cases hauth : toLowerCase msgSender = toLowerCase inputs.owner
      · refine Or.inr
          ⟨{ gameId := derivedGameId hashMessage s msgSender block,
             owner := inputs.owner, carPosition := 1, speed := inputs.initialSpeed,
             score := -1, obstacle := generateObstacles block.timestamp,
             isGameOver := false, startedAt := inputs.startedAt, endedAt := none },
           ?_, Or.inl hauth⟩
        simp [applyAction, createGame, hauth, addressedId, derivedGameId]
      · exact Or.inl (by simp [applyAction, createGame, hauth])
  | userMove gameId actionType timestamp msgSender =>
      cases hl : lookupGame s.games gameId with
      | none => exact Or.inl (by simp [applyAction, userMove, hl])
      | some game =>
          by_cases hown : toLowerCase game.owner = toLowerCase msgSender
          · by_cases ha1 : actionType = "moveLeft"
            · by_cases hp : game.carPosition = 1
              · refine Or.inr ⟨{ game with carPosition := 0 }, ?_, Or.inr (by simp [addressedId, hl])⟩
                simp [applyAction, userMove, hl, hown, ha1, hp, addressedId]
              · exact Or.inl (by simp [applyAction, userMove, hl, hown, ha1, hp])
            · by_cases ha2 : actionType = "moveRight"
              · by_cases hp : game.carPosition = 0
                · refine Or.inr ⟨{ game with carPosition := 1 }, ?_, Or.inr (by simp [addressedId, hl])⟩
                  simp [applyAction, userMove, hl, hown, ha1, ha2, hp, addressedId]
                · exact Or.inl (by simp [applyAction, userMove, hl, hown, ha1, ha2, hp])
              · exact Or.inl (by simp [applyAction, userMove, hl, hown, ha1, ha2])
          · exact Or.inl (by simp [applyAction, userMove, hl, hown])
  | generateObstacleAndScoreUpdate gameId timestamp msgSender =>
      cases hl : lookupGame s.games gameId with
      | none => exact Or.inl (by simp [applyAction, generateObstacleAndScoreUpdate, hl])
      | some game =>
          by_cases hown : toLowerCase game.owner = toLowerCase msgSender
          · refine Or.inr
              ⟨{ game with obstacle := generateObstacles timestamp,
                           score := game.score + (game.speed : Int) },
               ?_, Or.inr (by simp [addressedId, hl])⟩
            simp [applyAction, generateObstacleAndScoreUpdate, hl, hown, addressedId]
          · exact Or.inl (by simp [applyAction, generateObstacleAndScoreUpdate, hl, hown])
  | gameOver gameId over timestamp msgSender =>
      cases hl : lookupGame s.games gameId with
      | none => exact Or.inl (by simp [applyAction, gameOver, hl])
      | some game =>
          by_cases hown : toLowerCase game.owner = toLowerCase msgSender
          · refine Or.inr
              ⟨{ game with isGameOver := over, endedAt := some timestamp },
               ?_, Or.inr (by simp [addressedId, hl])⟩
            simp [applyAction, gameOver, hl, hown, addressedId]
          · exact Or.inl (by simp [applyAction, gameOver, hl, hown])
  | resetGame gameId timestamp msgSender block =>
      cases hl : lookupGame s.games gameId with
      | none => exact Or.inl (by simp [applyAction, resetGame, hl])
      | some game =>
          by_cases hown : toLowerCase game.owner = toLowerCase msgSender
          · refine Or.inr
              ⟨{ game with carPosition := 1, speed := 1, score := 0,
                           obstacle := generateObstacles block.timestamp,
                           isGameOver := false, endedAt := none },
               ?_, Or.inr (by simp [addressedId, hl])⟩
            simp [applyAction, resetGame, hl, hown, addressedId]
          · exact Or.inl (by simp [applyAction, resetGame, hl, hown])

theorem applyAction_createSucceeds_shape (hashMessage : String → String)
    (s : AppState) (a : Action) (hcs : createSucceeds a) :
    ∃ g', (applyAction hashMessage s a).1.games =
      setGame s.games (addressedId hashMessage s a) g' := by
  cases a with
  | createGame inputs msgSender block =>
      have hauth : toLowerCase msgSender = toLowerCase inputs.owner := hcs
      refine
        ⟨{ gameId := derivedGameId hashMessage s msgSender block,
           owner := inputs.owner, carPosition := 1, speed := inputs.initialSpeed,
           score := -1, obstacle := generateObstacles block.timestamp,
           isGameOver := false, startedAt := inputs.startedAt, endedAt := none },
         ?_⟩
      simp [applyAction, createGame, hauth, addressedId, derivedGameId]
  | userMove gameId actionType timestamp msgSender => exact hcs.elim
  | generateObstacleAndScoreUpdate gameId timestamp msgSender => exact hcs.elim
  | gameOver gameId over timestamp msgSender => exact hcs.elim
  | resetGame gameId timestamp msgSender block => exact hcs.elim

/-- Claim C10: no transition ever removes a key from the games store; every
game other than the addressed one (the derived id for createGame, the input
gameId otherwise) is left completely unchanged; the key set grows by exactly
one on a successful createGame with a fresh derived id and is otherwise
unchanged. -/
theorem c10_frame_no_delete (hashMessage : String → String) (state : AppState)
    (a : Action) :
    (∀ k, (lookupGame state.games k).isSome →
      (lookupGame (applyAction hashMessage state a).1.games k).isSome) ∧
    (∀ k, k ≠ addressedId hashMessage state a →
      lookupGame (applyAction hashMessage state a).1.games k =
        lookupGame state.games k) ∧
    (¬ createSucceeds a →
      (applyAction hashMessage state a).1.games.length = state.games.length) ∧
    (createSucceeds a →
      lookupGame state.games (addressedId hashMessage state a) = none →
      (applyAction hashMessage state a).1.games.length = state.games.length + 1) := by
  refine ⟨?_, ?_, ?_, ?_⟩
  · intro k hk
    rcases applyAction_shape hashMessage state a with hres | ⟨g', hres, _⟩
    · rw [hres]
      exact hk
    · rw [hres]
      exact isSome_lookupGame_setGame state.games _ k g' hk
  · intro k hk
    rcases applyAction_shape hashMessage state a with hres | ⟨g', hres, _⟩
    · rw [hres]
    · rw [hres]
      exact lookupGame_setGame_ne state.games _ k g' hk
  · intro hncs
    rcases applyAction_shape hashMessage state a with hres | ⟨g', hres, hd⟩
    · rw [hres]
    · rcases hd with hcs | hsome
      · exact absurd hcs hncs
      · rw [hres, length_setGame]
        simp [hsome]
  · intro hcs hfresh
    obtain ⟨g', hres⟩ := applyAction_createSucceeds_shape hashMessage state a hcs
    rw [hres, length_setGame, hfresh]
    simp

/-- Witness for C10: a gameOver on g1 in a two-game store leaves g2 untouched,
keeps both keys, and a fresh create on the empty store grows the store to one. -/
theorem c10_frame_no_delete_witness :
    (lookupGame
        (applyAction (fun s => s)
          { games := [("g1", { gameId := "g1", owner := "0xA", carPosition := 1, speed := 2,
                               score := -1, obstacle := { lane := 1, z := -70 },
                               isGameOver := false, startedAt := 100, endedAt := none }),
                      ("g2", { gameId := "g2", owner := "0xB", carPosition := 0, speed := 3,
                               score := 4, obstacle := { lane := 0, z := -70 },
                               isGameOver := false, startedAt := 200, endedAt := none })] }
          (Action.gameOver "g1" true 500 "0xA")).1.games "g2" =
      lookupGame
        [("g1", { gameId := "g1", owner := "0xA", carPosition := 1, speed := 2,
                  score := -1, obstacle := { lane := 1, z := -70 },
                  isGameOver := false, startedAt := 100, endedAt := none }),
         ("g2", { gameId := "g2", owner := "0xB", carPosition := 0, speed := 3,
                  score := 4, obstacle := { lane := 0, z := -70 },
                  isGameOver := false, startedAt := 200, endedAt := none })] "g2") ∧
    (applyAction (fun s => s) initialState
        (Action.createGame { owner := "0xA", initialSpeed := 2, startedAt := 100 } "0xA"
          { timestamp := 7 })).1.games.length = initialState.games.length + 1 :=
  ⟨(c10_frame_no_delete (fun s => s)
      { games := [("g1", { gameId := "g1", owner := "0xA", carPosition := 1, speed := 2,
                           score := -1, obstacle := { lane := 1, z := -70 },
                           isGameOver := false, startedAt := 100, endedAt := none }),
                  ("g2", { gameId := "g2", owner := "0xB", carPosition := 0, speed := 3,
                           score := 4, obstacle := { lane := 0, z := -70 },
                           isGameOver := false, startedAt := 200, endedAt := none })] }
      (Action.gameOver "g1" true 500 "0xA")).2.1 "g2" (by decide),
   (c10_frame_no_delete (fun s => s) initialState
      (Action.createGame { owner := "0xA", initialSpeed := 2, startedAt := 100 } "0xA"
        { timestamp := 7 })).2.2.2 rfl (by decide)⟩

end TrafficRun
